import Mathlib

/-!
Verification of the TLP routing and bridge configuration-register logic of
`cocotbext/pcie/core/bridge.py` (classes `Bridge`, `SwitchUpstreamPort`),
against its natural-language specification.

The register file and the routing decision procedures are shallowly embedded
as pure Lean functions over explicit state records.  Machine integers are
modelled as `Nat` with explicit masking, matching Python's unbounded ints.
Collaborator code that lives outside `bridge.py` (`utils.py`, `tlp.py`,
`function.py`, `port.py`) is modelled from the specification; each such
definition carries a doc comment starting with "Modelled from the spec:".
-/

/-- Modelled from the spec: `PcieId` from `utils.py` is a triple
(bus, device, function) uniquely addressing a function. -/
structure PcieId where
  bus : Nat
  device : Nat
  function : Nat
deriving DecidableEq, Repr

/-- The TLP format/type tags named by `bridge.py` (a subset of the `TlpType`
enum of `tlp.py`, which is not part of the routing core; only the tags the
router dispatches on are modelled). -/
inductive TlpType where
  | CFG_READ_0
  | CFG_WRITE_0
  | CFG_READ_1
  | CFG_WRITE_1
  | CPL
  | CPL_DATA
  | CPL_LOCKED
  | CPL_LOCKED_DATA
  | MSG_ID
  | MSG_DATA_ID
  | IO_READ
  | IO_WRITE
  | MEM_READ
  | MEM_READ_64
  | MEM_WRITE
  | MEM_WRITE_64
  | MSG_TO_RC
  | MSG_DATA_TO_RC
  | MSG_BCAST
  | MSG_DATA_BCAST
  | MSG_LOCAL
  | MSG_DATA_LOCAL
  | MSG_GATHER
  | MSG_DATA_GATHER
deriving DecidableEq, Repr

/-- Modelled from the spec: the fields of `Tlp` (from `tlp.py`) that the
routing engine reads: the type tag, destination and requester identities,
the completer identity of a completion, and the address. -/
structure Tlp where
  fmt_type : TlpType
  dest_id : PcieId
  requester_id : PcieId
  completer_id : PcieId
  address : Nat
deriving DecidableEq, Repr

/-- Byte lanes `0 ≤ l < n` of the masked byte-lane update: lane `l` is taken
from `new` when bit `l` of the byte-enable `mask` is set, and from `old`
otherwise. -/
def bmu_lanes (old mask new : Nat) : Nat → Nat
  | 0 => 0
  | l + 1 => bmu_lanes old mask new l ||| ((if mask.testBit l then new else old) &&& (0xff <<< (8 * l)))

/-- Modelled from the spec: `byte_mask_update` from `utils.py`.  For each set
bit `l` of the (at most 8-bit) byte-enable `mask`, byte `l` of the result is
taken from `new`; all other bytes (including everything from bit 64 up) are
kept from `old`. -/
def byte_mask_update (old mask new : Nat) : Nat :=
  ((old >>> 64) <<< 64) ||| bmu_lanes old mask new 8

/-- Modelled from the spec: `byte_mask_update` with an explicit `bit_mask`
argument; the incoming value is additionally ANDed against the register's
decode mask before the byte-lane update. -/
def byte_mask_update_m (old mask new bit_mask : Nat) : Nat :=
  byte_mask_update old mask (new &&& bit_mask)

/-- The configuration-register state of a `Bridge` (class `Bridge` in
`bridge.py`), plus the identity/root flags of the underlying `Function` that
the routing code reads.  `match_bar` is Modelled from the spec: the BAR match
predicate of the base `Function` (out-of-scope collaborator), taken abstractly
as a predicate `address → is-io → Bool`.  `base_writes` records the register
writes delegated to the base `Function` register file (the
`super().write_config_register` calls), which is itself out of scope. -/
structure Bridge where
  bar0 : Nat := 0
  bar1 : Nat := 0
  bar_mask0 : Nat := 0
  bar_mask1 : Nat := 0
  pri_bus_num : Nat := 0
  sec_bus_num : Nat := 0
  sub_bus_num : Nat := 0
  sec_lat_timer : Nat := 0
  io_base : Nat := 0x0000
  io_limit : Nat := 0x0fff
  io_addr_capability : Nat := 0x1
  master_data_parity_error : Bool := false
  signaled_target_abort : Bool := false
  received_target_abort : Bool := false
  received_master_abort : Bool := false
  received_system_error : Bool := false
  detected_parity_error : Bool := false
  mem_base : Nat := 0x00000000
  mem_limit : Nat := 0x000fffff
  prefetchable_mem_base : Nat := 0x00000000
  prefetchable_mem_limit : Nat := 0x000fffff
  parity_error_response_enable : Bool := false
  serr_enable : Bool := false
  secondary_bus_reset : Bool := false
  root : Bool := false
  pcie_id : PcieId := ⟨0, 0, 0⟩
  capabilities_ptr : Nat := 0
  interrupt_line : Nat := 0
  interrupt_pin : Nat := 0
  expansion_rom_addr : Nat := 0
  expansion_rom_addr_mask : Nat := 0
  expansion_rom_enable : Bool := false
  match_bar : Nat → Bool → Bool := fun _ _ => false
  base_writes : List (Nat × Nat × Nat) := []

/-- Convert a `Bool` to the 0/1 value Python's `bool(x) << n` produces. -/
def boolNat (b : Bool) : Nat := if b then 1 else 0

/-- `Bridge.read_config_register` from `bridge.py`: composes the current
state into the fixed 32-bit layout of the given register index.  Indices not
handled by the bridge layout delegate to the base `Function` register file,
modelled by the result `none`. -/
def Bridge.read_config_register (s : Bridge) (reg : Nat) : Option Nat :=
  if reg = 4 then
    some s.bar0
  else if reg = 5 then
    some s.bar1
  else if reg = 6 then
    some ((s.pri_bus_num &&& 0xff) ||| ((s.sec_bus_num &&& 0xff) <<< 8) |||
      ((s.sub_bus_num &&& 0xff) <<< 16) ||| ((s.sec_lat_timer &&& 0xff) <<< 24))
  else if reg = 7 then
    some ((s.io_addr_capability &&& 0xf) ||| ((s.io_base &&& 0xf000) >>> 8) |||
      ((s.io_addr_capability &&& 0xf) <<< 8) ||| (s.io_limit &&& 0xf000) |||
      (boolNat s.master_data_parity_error <<< 24) |||
      (boolNat s.signaled_target_abort <<< 27) |||
      (boolNat s.received_target_abort <<< 28) |||
      (boolNat s.received_master_abort <<< 29) |||
      (boolNat s.received_system_error <<< 30) |||
      (boolNat s.detected_parity_error <<< 31))
  else if reg = 8 then
    some (((s.mem_base &&& 0xfff00000) >>> 16) ||| (s.mem_limit &&& 0xfff00000))
  else if reg = 9 then
    some (((s.prefetchable_mem_base &&& 0xfff00000) >>> 16) |||
      (s.prefetchable_mem_limit &&& 0xfff00000))
  else if reg = 10 then
    some ((s.prefetchable_mem_base >>> 32) &&& 0xffffffff)
  else if reg = 11 then
    some ((s.prefetchable_mem_limit >>> 32) &&& 0xffffffff)
  else if reg = 12 then
    some (((s.io_base &&& 0xffff0000) >>> 16) ||| (s.io_limit &&& 0xffff0000))
  else if reg = 13 then
    some s.capabilities_ptr
  else if reg = 14 then
    some (boolNat s.expansion_rom_enable ||| (s.expansion_rom_addr &&& 0xfffff800))
  else if reg = 15 then
    some ((s.interrupt_line &&& 0xff) ||| ((s.interrupt_pin &&& 0xff) <<< 8) |||
      (boolNat s.parity_error_response_enable <<< 16) |||
      (boolNat s.serr_enable <<< 17) |||
      (boolNat s.secondary_bus_reset <<< 22))
  else
    none

/-- The register-7 secondary-status write-1-to-clear update (the
`mask & 0x8` arm of `Bridge.write_config_register`): each of the six
independent `if data & 1 << n:` statements clears its own flag. -/
def Bridge.clear_status_bits (s : Bridge) (data : Nat) : Bridge :=
  { s with
    master_data_parity_error :=
      if data &&& (1 <<< 24) ≠ 0 then false else s.master_data_parity_error
    signaled_target_abort :=
      if data &&& (1 <<< 27) ≠ 0 then false else s.signaled_target_abort
    received_target_abort :=
      if data &&& (1 <<< 28) ≠ 0 then false else s.received_target_abort
    received_master_abort :=
      if data &&& (1 <<< 29) ≠ 0 then false else s.received_master_abort
    received_system_error :=
      if data &&& (1 <<< 30) ≠ 0 then false else s.received_system_error
    detected_parity_error :=
      if data &&& (1 <<< 31) ≠ 0 then false else s.detected_parity_error }

/-- The `if mask & 0x8:` guard in front of the secondary-status clear of
register 7. -/
def Bridge.clear_status_bits_if (s : Bridge) (data mask : Nat) : Bridge :=
  if mask &&& 0x8 ≠ 0 then s.clear_status_bits data else s

/-- The `if reg == 5: ... elif ... else:` chain of
`Bridge.write_config_register` from `bridge.py` (every register index except
the separate bare `if reg == 4:` statement). -/
def Bridge.write_config_register_rest (s : Bridge) (reg data mask : Nat) : Bridge :=
  if reg = 5 then
    { s with bar1 := byte_mask_update_m s.bar1 mask data s.bar_mask1 }
  else if reg = 6 then
    { s with
      pri_bus_num := if mask &&& 0x1 ≠ 0 then data &&& 0xff else s.pri_bus_num
      sec_bus_num := if mask &&& 0x2 ≠ 0 then (data >>> 8) &&& 0xff else s.sec_bus_num
      sub_bus_num := if mask &&& 0x4 ≠ 0 then (data >>> 16) &&& 0xff else s.sub_bus_num }
  else if reg = 7 then
    Bridge.clear_status_bits_if
      { s with
        io_base := if mask &&& 0x1 ≠ 0 then
            byte_mask_update_m s.io_base 0x2 (data <<< 8) 0xf000
          else s.io_base
        io_limit := if mask &&& 0x2 ≠ 0 then
            (byte_mask_update_m s.io_limit 0x2 data 0xf000) ||| 0xfff
          else s.io_limit }
      data mask
  else if reg = 8 then
    { s with
      mem_base := byte_mask_update_m s.mem_base ((mask &&& 0x3) <<< 2) (data <<< 16) 0xfff00000,
      mem_limit := (byte_mask_update_m s.mem_limit (mask &&& 0xc) data 0xfff00000) ||| 0xfffff }
  else if reg = 9 then
    { s with
      prefetchable_mem_base :=
        byte_mask_update_m s.prefetchable_mem_base ((mask &&& 0x3) <<< 2) (data <<< 16) 0xfff00000,
      prefetchable_mem_limit :=
        (byte_mask_update_m s.prefetchable_mem_limit (mask &&& 0xc) data 0xfff00000) ||| 0xfffff }
  else if reg = 10 then
    { s with prefetchable_mem_base :=
        byte_mask_update s.prefetchable_mem_base (mask <<< 4) (data <<< 32) }
  else if reg = 11 then
    { s with prefetchable_mem_limit :=
        byte_mask_update s.prefetchable_mem_limit (mask <<< 4) (data <<< 32) }
  else if reg = 12 then
    { s with
      io_base := byte_mask_update s.io_base ((mask &&& 0x3) <<< 2) (data <<< 16),
      io_limit := byte_mask_update s.io_limit (mask &&& 0xc) data }
  else if reg = 14 then
    { s with
      expansion_rom_addr :=
        (byte_mask_update_m s.expansion_rom_addr mask data s.expansion_rom_addr_mask) &&& 0xfffff800
      expansion_rom_enable :=
        if mask &&& 0x1 ≠ 0 then data &&& 1 ≠ 0 else s.expansion_rom_enable }
  else if reg = 15 then
    { s with
      interrupt_line := if mask &&& 0x1 ≠ 0 then data &&& 0xff else s.interrupt_line
      parity_error_response_enable :=
        if mask &&& 0x4 ≠ 0 then data &&& (1 <<< 16) ≠ 0 else s.parity_error_response_enable
      serr_enable := if mask &&& 0x4 ≠ 0 then data &&& (1 <<< 17) ≠ 0 else s.serr_enable
      secondary_bus_reset :=
        if mask &&& 0x4 ≠ 0 then data &&& (1 <<< 22) ≠ 0 else s.secondary_bus_reset }
  else
    { s with base_writes := s.base_writes ++ [(reg, data, mask)] }

/-- `Bridge.write_config_register` from `bridge.py`.  Note the source quirk:
the `reg == 4` test is a bare `if` statement and the chain
`if reg == 5: ... elif ... else:` is a separate statement, so a write to
index 4 updates BAR0 and then also falls into the final `else` branch,
delegating to the base register file. -/
def Bridge.write_config_register (s : Bridge) (reg data mask : Nat) : Bridge :=
  Bridge.write_config_register_rest
    (if reg = 4 then { s with bar0 := byte_mask_update_m s.bar0 mask data s.bar_mask0 } else s)
    reg data mask

/-- A sequence of `write_config_register` calls applied in order. -/
def Bridge.write_config_seq (s : Bridge) (ws : List (Nat × Nat × Nat)) : Bridge :=
  ws.foldl (fun a w => a.write_config_register w.1 w.2.1 w.2.2) s

/-- The low-order granularity bits of the three limit registers are forced
to 1: `io_limit` low 12 bits, `mem_limit` and `prefetchable_mem_limit` low
20 bits. -/
def limits_forced (s : Bridge) : Prop :=
  s.io_limit &&& 0xfff = 0xfff ∧ s.mem_limit &&& 0xfffff = 0xfffff ∧
    s.prefetchable_mem_limit &&& 0xfffff = 0xfffff

instance (s : Bridge) : Decidable (limits_forced s) := by
  unfold limits_forced
  exact inferInstance

/-- Pointwise implication on the six secondary-status bits: every status bit
set in `t` was already set in `s` (no bit was newly set). -/
def status_le (t s : Bridge) : Bool :=
  (!t.master_data_parity_error || s.master_data_parity_error) &&
  (!t.signaled_target_abort || s.signaled_target_abort) &&
  (!t.received_target_abort || s.received_target_abort) &&
  (!t.received_master_abort || s.received_master_abort) &&
  (!t.received_system_error || s.received_system_error) &&
  (!t.detected_parity_error || s.detected_parity_error)

/-- The TLP-type groups `bridge.py` dispatches on (CFG_READ_0 / CFG_WRITE_0). -/
def TlpType.is_cfg0 : TlpType → Bool
  | .CFG_READ_0 | .CFG_WRITE_0 => true
  | _ => false

/-- Type-1 configuration requests (CFG_READ_1 / CFG_WRITE_1). -/
def TlpType.is_cfg1 : TlpType → Bool
  | .CFG_READ_1 | .CFG_WRITE_1 => true
  | _ => false

/-- Completions (CPL / CPL_DATA / CPL_LOCKED / CPL_LOCKED_DATA). -/
def TlpType.is_cpl : TlpType → Bool
  | .CPL | .CPL_DATA | .CPL_LOCKED | .CPL_LOCKED_DATA => true
  | _ => false

/-- ID-routed messages (MSG_ID / MSG_DATA_ID). -/
def TlpType.is_msg_id : TlpType → Bool
  | .MSG_ID | .MSG_DATA_ID => true
  | _ => false

/-- IO read/write requests. -/
def TlpType.is_io_rw : TlpType → Bool
  | .IO_READ | .IO_WRITE => true
  | _ => false

/-- Memory read/write requests (32- and 64-bit address variants). -/
def TlpType.is_mem_rw : TlpType → Bool
  | .MEM_READ | .MEM_READ_64 | .MEM_WRITE | .MEM_WRITE_64 => true
  | _ => false

/-- Messages routed to the root complex. -/
def TlpType.is_msg_to_rc : TlpType → Bool
  | .MSG_TO_RC | .MSG_DATA_TO_RC => true
  | _ => false

/-- Broadcast messages from the root complex. -/
def TlpType.is_bcast : TlpType → Bool
  | .MSG_BCAST | .MSG_DATA_BCAST => true
  | _ => false

/-- Messages terminating at the receiver. -/
def TlpType.is_msg_local : TlpType → Bool
  | .MSG_LOCAL | .MSG_DATA_LOCAL => true
  | _ => false

/-- Gather messages to the root complex. -/
def TlpType.is_gather : TlpType → Bool
  | .MSG_GATHER | .MSG_DATA_GATHER => true
  | _ => false

/-- The type-1 to type-0 rewrite of `Bridge.upstream_recv` (`bridge.py`
lines 296-299): a config request targeted at the directly connected bus is
changed to the corresponding type-0 request. -/
def cfg1_to_cfg0 : TlpType → TlpType
  | .CFG_READ_1 => .CFG_READ_0
  | .CFG_WRITE_1 => .CFG_WRITE_0
  | t => t

/-- The possible outcomes of a `Bridge` receive handler for a single TLP:
deliver locally (`handle_tlp`), call `route_downstream_tlp` with the given
`from_downstream` flag, send on the upstream port, silently drop (the `pass`
branches), raise the unimplemented-gather error (`raise Exception("TODO")`),
or raise the unknown-packet-type error. -/
inductive RecvAction where
  | handle_tlp (t : Tlp)
  | route_downstream (t : Tlp) (from_downstream : Bool)
  | upstream_send (t : Tlp)
  | dropped
  | fatal_todo
  | fatal_unknown
deriving DecidableEq, Repr

/-- `Bridge.upstream_recv` from `bridge.py` (lines 286-363): the routing
decision for a TLP arriving on the upstream port (flowing toward the
leaves). -/
def Bridge.upstream_recv (s : Bridge) (tlp : Tlp) : RecvAction :=
  if tlp.fmt_type.is_cfg0 then
    .handle_tlp tlp
  else if tlp.fmt_type.is_cfg1 then
    if s.sec_bus_num ≤ tlp.dest_id.bus ∧ tlp.dest_id.bus ≤ s.sub_bus_num then
      .route_downstream
        (if tlp.dest_id.bus = s.sec_bus_num then
          { tlp with fmt_type := cfg1_to_cfg0 tlp.fmt_type }
        else tlp) false
    else .dropped
  else if tlp.fmt_type.is_cpl then
    if s.root = false ∧ tlp.requester_id = s.pcie_id then .handle_tlp tlp
    else if s.sec_bus_num ≤ tlp.requester_id.bus ∧ tlp.requester_id.bus ≤ s.sub_bus_num then
      .route_downstream tlp false
    else .dropped
  else if tlp.fmt_type.is_msg_id then
    if s.root = false ∧ tlp.dest_id = s.pcie_id then .handle_tlp tlp
    else if s.sec_bus_num ≤ tlp.dest_id.bus ∧ tlp.dest_id.bus ≤ s.sub_bus_num then
      .route_downstream tlp false
    else .dropped
  else if tlp.fmt_type.is_io_rw then
    if s.match_bar tlp.address true then .handle_tlp tlp
    else if s.io_base ≤ tlp.address ∧ tlp.address ≤ s.io_limit then
      .route_downstream tlp false
    else .dropped
  else if tlp.fmt_type.is_mem_rw then
    if s.match_bar tlp.address false then .handle_tlp tlp
    else if (s.mem_base ≤ tlp.address ∧ tlp.address ≤ s.mem_limit) ∨
        (s.prefetchable_mem_base ≤ tlp.address ∧ tlp.address ≤ s.prefetchable_mem_limit) then
      .route_downstream tlp false
    else .dropped
  else if tlp.fmt_type.is_msg_to_rc then .dropped
  else if tlp.fmt_type.is_bcast then .route_downstream tlp false
  else if tlp.fmt_type.is_msg_local then .dropped
  else if tlp.fmt_type.is_gather then .dropped
  else .fatal_unknown

/-- `Bridge.downstream_recv` from `bridge.py` (lines 374-453): the routing
decision for a TLP arriving on the downstream port (flowing toward the
root). -/
def Bridge.downstream_recv (s : Bridge) (tlp : Tlp) : RecvAction :=
  if tlp.fmt_type.is_cfg0 || tlp.fmt_type.is_cfg1 then
    .dropped
  else if tlp.fmt_type.is_cpl then
    if s.root = false ∧ tlp.requester_id = s.pcie_id then .handle_tlp tlp
    else if s.sec_bus_num ≤ tlp.requester_id.bus ∧ tlp.requester_id.bus ≤ s.sub_bus_num then
      if s.root = true ∧ tlp.requester_id.bus = s.pri_bus_num ∧ tlp.requester_id.device = 0 then
        .upstream_send tlp
      else .route_downstream tlp true
    else .upstream_send tlp
  else if tlp.fmt_type.is_msg_id then
    if s.root = false ∧ tlp.dest_id = s.pcie_id then .handle_tlp tlp
    else if s.sec_bus_num ≤ tlp.dest_id.bus ∧ tlp.dest_id.bus ≤ s.sub_bus_num then
      if s.root = true ∧ tlp.dest_id.bus = s.pri_bus_num ∧ tlp.dest_id.device = 0 then
        .upstream_send tlp
      else .route_downstream tlp true
    else .upstream_send tlp
  else if tlp.fmt_type.is_io_rw then
    if s.match_bar tlp.address true then .handle_tlp tlp
    else if s.io_base ≤ tlp.address ∧ tlp.address ≤ s.io_limit then
      .route_downstream tlp true
    else .upstream_send tlp
  else if tlp.fmt_type.is_mem_rw then
    if s.match_bar tlp.address false then .handle_tlp tlp
    else if (s.mem_base ≤ tlp.address ∧ tlp.address ≤ s.mem_limit) ∨
        (s.prefetchable_mem_base ≤ tlp.address ∧ tlp.address ≤ s.prefetchable_mem_limit) then
      .route_downstream tlp true
    else .upstream_send tlp
  else if tlp.fmt_type.is_msg_to_rc then .upstream_send tlp
  else if tlp.fmt_type.is_bcast then .dropped
  else if tlp.fmt_type.is_msg_local then .dropped
  else if tlp.fmt_type.is_gather then .fatal_todo
  else .fatal_unknown

/-- The bridge window registers that `SwitchUpstreamPort.route_downstream_tlp`
reads from a downstream neighbor that is itself a `Bridge` (the
`isinstance(dev, Bridge)` arms). -/
structure BridgeWindowRegs where
  sec_bus_num : Nat
  sub_bus_num : Nat
  io_base : Nat
  io_limit : Nat
  mem_base : Nat
  mem_limit : Nat
  prefetchable_mem_base : Nat
  prefetchable_mem_limit : Nat
deriving Repr

/-- A downstream neighbor (`p.parent` for `p` in `downstream_port.other`):
its identity, its BAR match predicate (Modelled from the spec: part of the
out-of-scope base `Function`), and, when the neighbor is a `Bridge`, its
window registers (`bridge_regs = none` models `isinstance(dev, Bridge)`
being false). -/
structure DownstreamDev where
  pcie_id : PcieId
  match_bar : Nat → Bool → Bool
  bridge_regs : Option BridgeWindowRegs

/-- Observable effects of the fan-out router: delivery of a TLP to the
downstream neighbor at a given position (`p.ext_recv(Tlp(tlp))`), or a send
on the switch's upstream port (`upstream_send`). -/
inductive RouteEvent where
  | ext_recv (i : Nat) (t : Tlp)
  | upstream_send (t : Tlp)
deriving DecidableEq, Repr

/-- Outcome of the neighbor iteration of
`SwitchUpstreamPort.route_downstream_tlp`: either a `return` was hit after
the recorded deliveries, or the loop ran to completion with the final value
of the `ok` flag. -/
inductive LoopResult where
  | returned (evs : List RouteEvent)
  | completed (evs : List RouteEvent) (ok : Bool)
deriving DecidableEq, Repr

/-- `isinstance(dev, Bridge) and dev.sec_bus_num <= b <= dev.sub_bus_num`,
the subordinate-bus containment test against a neighbor. -/
def DownstreamDev.bus_in_range (dev : DownstreamDev) (b : Nat) : Bool :=
  match dev.bridge_regs with
  | some r => decide (r.sec_bus_num ≤ b ∧ b ≤ r.sub_bus_num)
  | none => false

/-- `isinstance(dev, Bridge) and dev.io_base <= addr <= dev.io_limit`. -/
def DownstreamDev.io_window_hit (dev : DownstreamDev) (addr : Nat) : Bool :=
  match dev.bridge_regs with
  | some r => decide (r.io_base ≤ addr ∧ addr ≤ r.io_limit)
  | none => false

/-- `isinstance(dev, Bridge)` and the address falls in the neighbor's plain
or prefetchable memory window. -/
def DownstreamDev.mem_window_hit (dev : DownstreamDev) (addr : Nat) : Bool :=
  match dev.bridge_regs with
  | some r => decide ((r.mem_base ≤ addr ∧ addr ≤ r.mem_limit) ∨
      (r.prefetchable_mem_base ≤ addr ∧ addr ≤ r.prefetchable_mem_limit))
  | none => false

/-- The `for p in self.downstream_port.other` loop of
`SwitchUpstreamPort.route_downstream_tlp` (`bridge.py` lines 476-541),
with the neighbor position `i`, accumulated delivery events `evs` and the
`ok` flag threaded explicitly.  Note that in the ID-routed-message arm the
source tests `tlp.requester_id.bus` (line 503), not `tlp.dest_id.bus`,
against the neighbor's subordinate bus range. -/
def route_loop (tlp : Tlp) : List DownstreamDev → Nat → List RouteEvent → Bool → LoopResult
  | [], _, evs, ok => .completed evs ok
  | dev :: rest, i, evs, ok =>
    if tlp.fmt_type.is_cfg0 then
      if tlp.dest_id.device = dev.pcie_id.device ∧ tlp.dest_id.function = dev.pcie_id.function then
        .returned (evs ++ [.ext_recv i tlp])
      else route_loop tlp rest (i + 1) evs ok
    else if tlp.fmt_type.is_cfg1 then
      if dev.bus_in_range tlp.dest_id.bus then .returned (evs ++ [.ext_recv i tlp])
      else route_loop tlp rest (i + 1) evs ok
    else if tlp.fmt_type.is_cpl then
      if tlp.requester_id = dev.pcie_id then .returned (evs ++ [.ext_recv i tlp])
      else if dev.bus_in_range tlp.requester_id.bus then .returned (evs ++ [.ext_recv i tlp])
      else route_loop tlp rest (i + 1) evs ok
    else if tlp.fmt_type.is_msg_id then
      if tlp.dest_id = dev.pcie_id then .returned (evs ++ [.ext_recv i tlp])
      else if dev.bus_in_range tlp.requester_id.bus then .returned (evs ++ [.ext_recv i tlp])
      else route_loop tlp rest (i + 1) evs ok
    else if tlp.fmt_type.is_io_rw then
      if dev.match_bar tlp.address true then .returned (evs ++ [.ext_recv i tlp])
      else if dev.io_window_hit tlp.address then .returned (evs ++ [.ext_recv i tlp])
      else route_loop tlp rest (i + 1) evs ok
    else if tlp.fmt_type.is_mem_rw then
      if dev.match_bar tlp.address false then .returned (evs ++ [.ext_recv i tlp])
      else if dev.mem_window_hit tlp.address then .returned (evs ++ [.ext_recv i tlp])
      else route_loop tlp rest (i + 1) evs ok
    else if tlp.fmt_type.is_msg_to_rc then
      route_loop tlp rest (i + 1) evs ok
    else if tlp.fmt_type.is_bcast then
      route_loop tlp rest (i + 1) (evs ++ [.ext_recv i tlp]) true
    else if tlp.fmt_type.is_msg_local then
      route_loop tlp rest (i + 1) evs ok
    else
      route_loop tlp rest (i + 1) evs ok

/-- The first-match test of a single loop iteration: true exactly when the
iteration hits one of the `return` statements for this neighbor. -/
def dev_match (tlp : Tlp) (dev : DownstreamDev) : Bool :=
  if tlp.fmt_type.is_cfg0 then
    decide (tlp.dest_id.device = dev.pcie_id.device ∧ tlp.dest_id.function = dev.pcie_id.function)
  else if tlp.fmt_type.is_cfg1 then
    dev.bus_in_range tlp.dest_id.bus
  else if tlp.fmt_type.is_cpl then
    decide (tlp.requester_id = dev.pcie_id) || dev.bus_in_range tlp.requester_id.bus
  else if tlp.fmt_type.is_msg_id then
    decide (tlp.dest_id = dev.pcie_id) || dev.bus_in_range tlp.requester_id.bus
  else if tlp.fmt_type.is_io_rw then
    dev.match_bar tlp.address true || dev.io_window_hit tlp.address
  else if tlp.fmt_type.is_mem_rw then
    dev.match_bar tlp.address false || dev.mem_window_hit tlp.address
  else false

/-- The state of a `SwitchUpstreamPort` that `route_downstream_tlp` reads:
its own identity (`self.bus_num`, `self.device_num`) and the declared
downstream neighbors in declaration order. -/
structure SwitchUpstreamPort where
  pcie_id : PcieId
  downstream_devs : List DownstreamDev

/-- Modelled from the spec: `Tlp.create_ur_completion_for_tlp` from `tlp.py`
(not under src/): synthesize an Unsupported-Request completion addressed back
to the packet's originating identity, with the given identity as the
responder. -/
def create_ur_completion_for_tlp (tlp : Tlp) (cid : PcieId) : Tlp :=
  { fmt_type := .CPL
    dest_id := tlp.requester_id
    requester_id := tlp.requester_id
    completer_id := cid
    address := 0 }

/-- `SwitchUpstreamPort.route_downstream_tlp` specialised to
`from_downstream = False`; this is the unfolding of the recursive call
`self.route_downstream_tlp(cpl, False)` in the unsupported-request branch
(`bridge.py` line 549), which cannot recurse further. -/
def SwitchUpstreamPort.route_downstream_tlp_noretry (s : SwitchUpstreamPort)
    (tlp : Tlp) : List RouteEvent :=
  match route_loop tlp s.downstream_devs 0 [] false with
  | .returned evs => evs
  | .completed evs true => evs
  | .completed evs false =>
    evs ++ [.upstream_send (create_ur_completion_for_tlp tlp
      ⟨s.pcie_id.bus, s.pcie_id.device, 0⟩)]

/-- `SwitchUpstreamPort.route_downstream_tlp` from `bridge.py` (lines
472-551): iterate the neighbors; if the loop completes with `ok` still
false, synthesize an Unsupported-Request completion
(`Tlp.create_ur_completion_for_tlp(tlp, PcieId(self.bus_num,
self.device_num, 0))`) and either retry it downstream (when the original
came from downstream) or send it upstream. -/
def SwitchUpstreamPort.route_downstream_tlp (s : SwitchUpstreamPort)
    (tlp : Tlp) (from_downstream : Bool) : List RouteEvent :=
  match route_loop tlp s.downstream_devs 0 [] false with
  | .returned evs => evs
  | .completed evs true => evs
  | .completed evs false =>
    let cpl := create_ur_completion_for_tlp tlp ⟨s.pcie_id.bus, s.pcie_id.device, 0⟩
    evs ++ (if from_downstream then s.route_downstream_tlp_noretry cpl
      else [.upstream_send cpl])

/-! ### Concrete states used by witnesses and counterexamples -/

/-- A bridge state with two secondary-status bits set. -/
def c4_state : Bridge := { master_data_parity_error := true, detected_parity_error := true }

/-- A bridge with subordinate bus range `[5, 10]`. -/
def c6_bridge : Bridge := { sec_bus_num := 5, sub_bus_num := 10 }

/-- A type-1 config read targeting bus 5 (the secondary bus of `c6_bridge`). -/
def c6_tlp : Tlp := ⟨.CFG_READ_1, ⟨5, 0, 0⟩, ⟨0, 0, 0⟩, ⟨0, 0, 0⟩, 0⟩

/-- A root bridge with primary bus 3 and subordinate range `[0, 255]`. -/
def c7_bridge : Bridge :=
  { root := true, pri_bus_num := 3, sec_bus_num := 0, sub_bus_num := 255 }

/-- A completion whose requester is bus 3 (the root's primary bus), device 0. -/
def c7_tlp : Tlp := ⟨.CPL, ⟨0, 0, 0⟩, ⟨3, 0, 0⟩, ⟨0, 0, 0⟩, 0⟩

/-- A gather message. -/
def c9_tlp : Tlp := ⟨.MSG_GATHER, ⟨0, 0, 0⟩, ⟨1, 0, 0⟩, ⟨0, 0, 0⟩, 0⟩

/-- A downstream neighbor that is not a bridge and claims no BAR. -/
def c1_cex_dev : DownstreamDev := ⟨⟨1, 0, 0⟩, fun _ _ => false, none⟩

/-- A switch upstream port with identity `(0,0,0)` and the single neighbor
`c1_cex_dev`. -/
def c1_cex_switch : SwitchUpstreamPort := ⟨⟨0, 0, 0⟩, [c1_cex_dev]⟩

/-- A memory read from the downstream device `(1,0,0)` whose address no
neighbor claims. -/
def c1_cex_tlp : Tlp := ⟨.MEM_READ, ⟨0, 0, 0⟩, ⟨1, 0, 0⟩, ⟨0, 0, 0⟩, 0x1000⟩

/-- A downstream neighbor bridge with subordinate bus range `[4, 10]`. -/
def c2_dev : DownstreamDev := ⟨⟨1, 0, 0⟩, fun _ _ => false, some ⟨4, 10, 0, 0, 0, 0, 0, 0⟩⟩

/-- A switch upstream port with the single bridge neighbor `c2_dev`. -/
def c2_switch : SwitchUpstreamPort := ⟨⟨0, 0, 0⟩, [c2_dev]⟩

/-- An ID-routed message whose `dest_id.bus = 5` lies inside the neighbor
bridge's range `[4, 10]` but whose `requester_id.bus = 20` does not. -/
def c2_tlp : Tlp := ⟨.MSG_ID, ⟨5, 0, 0⟩, ⟨20, 1, 0⟩, ⟨0, 0, 0⟩, 0⟩

/-- The mirror image of `c2_tlp`: `requester_id.bus = 5` is inside the
neighbor bridge's range, `dest_id.bus = 20` is not. -/
def c2_tlp_swapped : Tlp := ⟨.MSG_ID, ⟨20, 1, 0⟩, ⟨5, 0, 0⟩, ⟨0, 0, 0⟩, 0⟩

/-- A switch upstream port with no downstream neighbors. -/
def c3_cex_switch : SwitchUpstreamPort := ⟨⟨0, 0, 0⟩, []⟩

/-- A broadcast message. -/
def c3_cex_tlp : Tlp := ⟨.MSG_BCAST, ⟨0, 0, 0⟩, ⟨1, 2, 3⟩, ⟨0, 0, 0⟩, 0⟩

/-- A switch upstream port with two (non-bridge) downstream neighbors. -/
def c3w_switch : SwitchUpstreamPort :=
  ⟨⟨0, 0, 0⟩, [⟨⟨1, 0, 0⟩, fun _ _ => false, none⟩, ⟨⟨2, 0, 0⟩, fun _ _ => false, none⟩]⟩

/-! ### Bit-level helper lemmas -/

theorem testBit_false_of_ge (k : Nat) {c i : Nat} (hc : c < 2 ^ k) (hik : k ≤ i) :
    c.testBit i = false :=
  Nat.testBit_lt_two_pow (lt_of_lt_of_le hc (Nat.pow_le_pow_right (by omega) hik))

theorem testBit_255 (i : Nat) : (255 : Nat).testBit i = decide (i < 8) := by
  have h : (255 : Nat) = 2 ^ 8 - 1 := by norm_num
  rw [h, Nat.testBit_two_pow_sub_one]

theorem testBit_bmu_lanes (old mask new : Nat) (n j : Nat) :
    (bmu_lanes old mask new n).testBit j =
      if j < 8 * n then
        (if mask.testBit (j / 8) = true then new.testBit j else old.testBit j)
      else false := by
  induction n with
  | zero => simp [bmu_lanes]
  | succ n ih =>
    unfold bmu_lanes
    rcases Nat.lt_or_ge j (8 * n) with hj | hj
    · have hj1 : j < 8 * (n + 1) := by omega
      have hlane : (0xff <<< (8 * n) : Nat).testBit j = false := by
        simp only [Nat.testBit_shiftLeft]
        have : ¬ (j ≥ 8 * n) := by omega
        simp [this]
      simp [Nat.testBit_or, Nat.testBit_and, ih, hj, hj1, hlane]
    · rcases Nat.lt_or_ge j (8 * (n + 1)) with hj1 | hj1
      · have hdiv : j / 8 = n := by omega
        have hlane : (0xff <<< (8 * n) : Nat).testBit j = true := by
          simp only [Nat.testBit_shiftLeft]
          have h1 : j ≥ 8 * n := hj
          have h2 : j - 8 * n < 8 := by omega
          simp [h1, testBit_255, h2]
        have hnj : ¬ j < 8 * n := by omega
        simp only [Nat.testBit_or, Nat.testBit_and, ih, hlane, hdiv]
        simp [hnj, hj1]
        split <;> rfl
      · have hnj : ¬ j < 8 * n := by omega
        have hnj1 : ¬ j < 8 * (n + 1) := by omega
        have hlane : (0xff <<< (8 * n) : Nat).testBit j = false := by
          simp only [Nat.testBit_shiftLeft, testBit_255]
          have : ¬ (j - 8 * n < 8) := by omega
          simp [this]
        simp [Nat.testBit_or, Nat.testBit_and, ih, hnj, hnj1, hlane]

theorem testBit_byte_mask_update (old mask new j : Nat) :
    (byte_mask_update old mask new).testBit j =
      if j < 64 ∧ mask.testBit (j / 8) = true then new.testBit j else old.testBit j := by
  unfold byte_mask_update
  rcases Nat.lt_or_ge j 64 with hj | hj
  · have hhigh : ((old >>> 64) <<< 64 : Nat).testBit j = false := by
      simp only [Nat.testBit_shiftLeft]
      have : ¬ (j ≥ 64) := by omega
      simp [this]
    have h8 : j < 8 * 8 := by omega
    simp only [Nat.testBit_or, hhigh, testBit_bmu_lanes, h8, if_true, Bool.false_or]
    by_cases hm : mask.testBit (j / 8) = true <;> simp [hm, hj]
  · have hhigh : ((old >>> 64) <<< 64 : Nat).testBit j = old.testBit j := by
      simp only [Nat.testBit_shiftLeft, Nat.testBit_shiftRight]
      have h1 : j ≥ 64 := hj
      have h2 : 64 + (j - 64) = j := by omega
      simp [h1, h2]
    have h8 : ¬ j < 8 * 8 := by omega
    have h64 : ¬ j < 64 := by omega
    simp [Nat.testBit_or, hhigh, testBit_bmu_lanes, h8, h64]

theorem lor_and_self (a b : Nat) : (a ||| b) &&& b = b := by
  apply Nat.eq_of_testBit_eq
  intro i
  simp only [Nat.testBit_and, Nat.testBit_or]
  cases b.testBit i <;> simp

/-- Byte lanes whose mask bit is clear are preserved: if every set bit of `c`
lies in a byte lane that `mask` does not select, then the update leaves the
`c`-masked part of the value unchanged. -/
theorem byte_mask_update_and_untouched (old mask new c : Nat)
    (h : ∀ i, c.testBit i = true → mask.testBit (i / 8) = false) :
    (byte_mask_update old mask new) &&& c = old &&& c := by
  apply Nat.eq_of_testBit_eq
  intro i
  simp only [Nat.testBit_and, testBit_byte_mask_update]
  by_cases hc : c.testBit i = true
  · have hm := h i hc
    simp [hm]
  · simp only [Bool.not_eq_true] at hc
    simp [hc]

/-! ### Window-register lemmas -/

theorem pref_limit_upper_write_preserved (old mask new : Nat) :
    (byte_mask_update old (mask <<< 4) new) &&& 0xfffff = old &&& 0xfffff := by
  apply byte_mask_update_and_untouched
  intro i hi
  have hi20 : i < 20 := by
    by_contra hge
    push_neg at hge
    have hf : (0xfffff : Nat).testBit i = false := testBit_false_of_ge 20 (by norm_num) hge
    rw [hf] at hi
    exact Bool.false_ne_true hi
  simp only [Nat.testBit_shiftLeft]
  have hlt : ¬ (i / 8 ≥ 4) := by omega
  simp [hlt]

theorem io_limit_upper_write_preserved (old mask new : Nat) :
    (byte_mask_update old (mask &&& 0xc) new) &&& 0xfff = old &&& 0xfff := by
  apply byte_mask_update_and_untouched
  intro i hi
  have hi12 : i < 12 := by
    by_contra hge
    push_neg at hge
    have hf : (0xfff : Nat).testBit i = false := testBit_false_of_ge 12 (by norm_num) hge
    rw [hf] at hi
    exact Bool.false_ne_true hi
  simp only [Nat.testBit_and]
  have hd : i / 8 = 0 ∨ i / 8 = 1 := by omega
  have h0c : (0xc : Nat).testBit (i / 8) = false := by
    rcases hd with h | h <;> rw [h] <;> decide
  simp [h0c]

theorem io_limit_opt_forced (s : Bridge) (data mask : Nat)
    (h1 : s.io_limit &&& 0xfff = 0xfff) :
    (if mask &&& 0x2 ≠ 0 then (byte_mask_update_m s.io_limit 0x2 data 0xf000) ||| 0xfff
      else s.io_limit) &&& 0xfff = 0xfff := by
  split
  · exact lor_and_self _ _
  · exact h1

theorem limits_forced_write_rest (s : Bridge) (reg data mask : Nat)
    (h : limits_forced s) : limits_forced (s.write_config_register_rest reg data mask) := by
  obtain ⟨h1, h2, h3⟩ := h
  unfold Bridge.write_config_register_rest
  by_cases r5 : reg = 5
  · rw [if_pos r5]
    exact ⟨h1, h2, h3⟩
  rw [if_neg r5]
  by_cases r6 : reg = 6
  · rw [if_pos r6]
    exact ⟨h1, h2, h3⟩
  rw [if_neg r6]
  by_cases r7 : reg = 7
  · rw [if_pos r7]
    unfold Bridge.clear_status_bits_if
    by_cases m8 : mask &&& 0x8 ≠ 0
    · rw [if_pos m8]
      exact ⟨io_limit_opt_forced s data mask h1, h2, h3⟩
    · rw [if_neg m8]
      exact ⟨io_limit_opt_forced s data mask h1, h2, h3⟩
  rw [if_neg r7]
  by_cases r8 : reg = 8
  · rw [if_pos r8]
    exact ⟨h1, lor_and_self _ _, h3⟩
  rw [if_neg r8]
  by_cases r9 : reg = 9
  · rw [if_pos r9]
    exact ⟨h1, h2, lor_and_self _ _⟩
  rw [if_neg r9]
  by_cases r10 : reg = 10
  · rw [if_pos r10]
    exact ⟨h1, h2, h3⟩
  rw [if_neg r10]
  by_cases r11 : reg = 11
  · rw [if_pos r11]
    refine ⟨h1, h2, ?_⟩
    show (byte_mask_update s.prefetchable_mem_limit (mask <<< 4) (data <<< 32))
        &&& 0xfffff = 0xfffff
    rw [pref_limit_upper_write_preserved]
    exact h3
  rw [if_neg r11]
  by_cases r12 : reg = 12
  · rw [if_pos r12]
    refine ⟨?_, h2, h3⟩
    show (byte_mask_update s.io_limit (mask &&& 0xc) data) &&& 0xfff = 0xfff
    rw [io_limit_upper_write_preserved]
    exact h1
  rw [if_neg r12]
  by_cases r14 : reg = 14
  · rw [if_pos r14]
    exact ⟨h1, h2, h3⟩
  rw [if_neg r14]
  by_cases r15 : reg = 15
  · rw [if_pos r15]
    exact ⟨h1, h2, h3⟩
  rw [if_neg r15]
  exact ⟨h1, h2, h3⟩

theorem limits_forced_write (s : Bridge) (reg data mask : Nat)
    (h : limits_forced s) : limits_forced (s.write_config_register reg data mask) := by
  unfold Bridge.write_config_register
  refine limits_forced_write_rest _ reg data mask ?_
  by_cases r4 : reg = 4
  · rw [if_pos r4]
    exact h
  · rw [if_neg r4]
    exact h

theorem limits_forced_seq (ws : List (Nat × Nat × Nat)) :
    ∀ t : Bridge, limits_forced t → limits_forced (t.write_config_seq ws) := by
  induction ws with
  | nil => intro t ht; exact ht
  | cons w rest ih =>
    intro t ht
    exact ih _ (limits_forced_write t w.1 w.2.1 w.2.2 ht)

/-- C8: for every reachable register state — the initial state and any state
obtained from it by a sequence of `write_config_register` calls with any
index, data and mask — the low-order granularity bits of the limit registers
remain forced to 1: `io_limit &&& 0xfff = 0xfff`,
`mem_limit &&& 0xfffff = 0xfffff`, and
`prefetchable_mem_limit &&& 0xfffff = 0xfffff`; in particular the invariant
holds initially, is preserved by every single write (including writes to the
upper-half registers 11 and 12), and holds after every write sequence. -/
theorem limit_low_bits_invariant (ws : List (Nat × Nat × Nat)) (s : Bridge)
    (reg data mask : Nat) (hs : limits_forced s) :
    limits_forced ({} : Bridge) ∧
    limits_forced (s.write_config_register reg data mask) ∧
    limits_forced (Bridge.write_config_seq {} ws) :=
  ⟨by decide, limits_forced_write s reg data mask hs,
    limits_forced_seq ws {} (by decide)⟩

theorem limit_low_bits_invariant_witness :
    limits_forced ({} : Bridge) ∧
    limits_forced (Bridge.write_config_register {} 11 0xdeadbeef 0x5) ∧
    limits_forced (Bridge.write_config_seq {}
      [(8, 0, 0xF), (12, 0x12345678, 0xF), (11, 0xffffffff, 0xF), (7, 0, 0xF)]) :=
  limit_low_bits_invariant
    [(8, 0, 0xF), (12, 0x12345678, 0xF), (11, 0xffffffff, 0xF), (7, 0, 0xF)]
    {} 11 0xdeadbeef 0x5 (by decide)

/-- C5: after `write_config_register(8, data, mask=0xF)`, reading register 8
returns `data` with the low four reserved bits of the base field (bits 0-3)
and of the limit field (bits 16-19) forced to zero, i.e.
`data &&& 0xfff0fff0`, and the stored `mem_limit` has its low 20 bits
forced to 1. -/
theorem mem_window_reg_write_read (s : Bridge) (data : Nat) :
    (s.write_config_register 8 data 0xF).read_config_register 8
        = some (data &&& 0xfff0fff0) ∧
    (s.write_config_register 8 data 0xF).mem_limit &&& 0xfffff = 0xfffff := by
  have hb : (s.write_config_register 8 data 0xF).mem_base
      = byte_mask_update s.mem_base 12 ((data <<< 16) &&& 0xfff00000) := rfl
  have hl : (s.write_config_register 8 data 0xF).mem_limit
      = (byte_mask_update s.mem_limit 12 (data &&& 0xfff00000)) ||| 0xfffff := rfl
  have hr : (s.write_config_register 8 data 0xF).read_config_register 8
      = some ((((s.write_config_register 8 data 0xF).mem_base &&& 0xfff00000) >>> 16) |||
          ((s.write_config_register 8 data 0xF).mem_limit &&& 0xfff00000)) := rfl
  refine ⟨?_, by rw [hl]; exact lor_and_self _ _⟩
  rw [hr, hb, hl, Option.some_inj]
  apply Nat.eq_of_testBit_eq
  intro i
  rcases Nat.lt_or_ge i 32 with hi | hi
  · simp only [Nat.testBit_or, Nat.testBit_and, Nat.testBit_shiftLeft, Nat.testBit_shiftRight,
      testBit_byte_mask_update]
    interval_cases i <;> norm_num [Nat.testBit_to_div_mod]
  · have h1 : (0xfff00000 : Nat).testBit (16 + i) = false :=
      testBit_false_of_ge 32 (by norm_num) (by omega)
    have h2 : (0xfff00000 : Nat).testBit i = false :=
      testBit_false_of_ge 32 (by norm_num) (by omega)
    have h3 : (0xfff0fff0 : Nat).testBit i = false :=
      testBit_false_of_ge 32 (by norm_num) (by omega)
    simp [Nat.testBit_or, Nat.testBit_and, Nat.testBit_shiftRight, h1, h2, h3]


/-! ### Secondary-status write-1-to-clear -/

theorem and_one_shiftLeft_eq_zero (d n : Nat) :
    d &&& (1 <<< n) = 0 ↔ d.testBit n = false := by
  have hpow : (1 <<< n : Nat) = 2 ^ n := by
    rw [Nat.shiftLeft_eq, Nat.one_mul]
  constructor
  · intro h
    have h2 := congrArg (fun x => Nat.testBit x n) h
    simp only [hpow, Nat.testBit_and, Nat.zero_testBit, Nat.testBit_two_pow_self,
      Bool.and_true] at h2
    exact h2
  · intro h
    apply Nat.eq_of_testBit_eq
    intro i
    simp only [hpow, Nat.testBit_and, Nat.zero_testBit, Nat.testBit_two_pow]
    by_cases hin : n = i
    · subst hin
      simp [h]
    · simp [hin]

theorem ite_clear_eq (b : Bool) (d n : Nat) :
    (if d &&& (1 <<< n) ≠ 0 then false else b) = (b && !d.testBit n) := by
  by_cases h : d &&& (1 <<< n) = 0
  · rw [if_neg (not_not_intro h)]
    have hb := (and_one_shiftLeft_eq_zero d n).mp h
    simp [hb]
  · rw [if_pos h]
    have hb : d.testBit n = true := by
      rcases ht : d.testBit n
      · exact absurd ((and_one_shiftLeft_eq_zero d n).mpr ht) h
      · rfl
    simp [hb]

theorem bool_clear_mono (a b : Bool) (c : Prop) [Decidable c]
    (h : (!a || b) = true) : (!(if c then false else a) || b) = true := by
  split
  · rfl
  · exact h

theorem status_le_refl (s : Bridge) : status_le s s = true := by
  unfold status_le
  cases s.master_data_parity_error <;>
    cases s.signaled_target_abort <;>
    cases s.received_target_abort <;>
    cases s.received_master_abort <;>
    cases s.received_system_error <;>
    cases s.detected_parity_error <;>
    rfl

theorem status_le_write_rest (u s : Bridge) (reg d m : Nat)
    (h : status_le u s = true) : status_le (u.write_config_register_rest reg d m) s = true := by
  unfold Bridge.write_config_register_rest
  by_cases r5 : reg = 5
  · rw [if_pos r5]
    exact h
  rw [if_neg r5]
  by_cases r6 : reg = 6
  · rw [if_pos r6]
    exact h
  rw [if_neg r6]
  by_cases r7 : reg = 7
  · rw [if_pos r7]
    unfold Bridge.clear_status_bits_if
    by_cases m8 : m &&& 0x8 ≠ 0
    · rw [if_pos m8]
      unfold Bridge.clear_status_bits
      simp only [status_le, Bool.and_eq_true] at h ⊢
      obtain ⟨⟨⟨⟨⟨ha, hb⟩, hc⟩, hd⟩, he⟩, hf⟩ := h
      exact ⟨⟨⟨⟨⟨bool_clear_mono _ _ _ ha, bool_clear_mono _ _ _ hb⟩,
        bool_clear_mono _ _ _ hc⟩, bool_clear_mono _ _ _ hd⟩,
        bool_clear_mono _ _ _ he⟩, bool_clear_mono _ _ _ hf⟩
    · rw [if_neg m8]
      exact h
  rw [if_neg r7]
  by_cases r8 : reg = 8
  · rw [if_pos r8]
    exact h
  rw [if_neg r8]
  by_cases r9 : reg = 9
  · rw [if_pos r9]
    exact h
  rw [if_neg r9]
  by_cases r10 : reg = 10
  · rw [if_pos r10]
    exact h
  rw [if_neg r10]
  by_cases r11 : reg = 11
  · rw [if_pos r11]
    exact h
  rw [if_neg r11]
  by_cases r12 : reg = 12
  · rw [if_pos r12]
    exact h
  rw [if_neg r12]
  by_cases r14 : reg = 14
  · rw [if_pos r14]
    exact h
  rw [if_neg r14]
  by_cases r15 : reg = 15
  · rw [if_pos r15]
    exact h
  rw [if_neg r15]
  exact h

theorem status_le_write (s : Bridge) (reg d m : Nat) :
    status_le (s.write_config_register reg d m) s = true := by
  unfold Bridge.write_config_register
  refine status_le_write_rest _ s reg d m ?_
  by_cases r4 : reg = 4
  · rw [if_pos r4]
    exact status_le_refl s
  · rw [if_neg r4]
    exact status_le_refl s

/-- C4: a `write_config_register(7, data, mask)` call with mask bit 3 set
clears each secondary-status bit (`master_data_parity_error` at data bit 24,
`signaled_target_abort` at 27, `received_target_abort` at 28,
`received_master_abort` at 29, `received_system_error` at 30,
`detected_parity_error` at 31) exactly when the corresponding data bit is 1
and leaves it unchanged when the data bit is 0; moreover no
`write_config_register` call of any index, data and mask can set a status
bit that was clear (`status_le`). -/
theorem secondary_status_write1_clear (s : Bridge) (data mask reg2 d2 m2 : Nat)
    (h : mask &&& 0x8 ≠ 0) :
    ((s.write_config_register 7 data mask).master_data_parity_error
        = (s.master_data_parity_error && !data.testBit 24)) ∧
    ((s.write_config_register 7 data mask).signaled_target_abort
        = (s.signaled_target_abort && !data.testBit 27)) ∧
    ((s.write_config_register 7 data mask).received_target_abort
        = (s.received_target_abort && !data.testBit 28)) ∧
    ((s.write_config_register 7 data mask).received_master_abort
        = (s.received_master_abort && !data.testBit 29)) ∧
    ((s.write_config_register 7 data mask).received_system_error
        = (s.received_system_error && !data.testBit 30)) ∧
    ((s.write_config_register 7 data mask).detected_parity_error
        = (s.detected_parity_error && !data.testBit 31)) ∧
    status_le (s.write_config_register reg2 d2 m2) s = true := by
  have hw : s.write_config_register 7 data mask
      = Bridge.clear_status_bits_if
          { s with
            io_base := if mask &&& 0x1 ≠ 0 then
                byte_mask_update_m s.io_base 0x2 (data <<< 8) 0xf000
              else s.io_base
            io_limit := if mask &&& 0x2 ≠ 0 then
                (byte_mask_update_m s.io_limit 0x2 data 0xf000) ||| 0xfff
              else s.io_limit }
          data mask := rfl
  rw [hw]
  unfold Bridge.clear_status_bits_if
  rw [if_pos h]
  exact ⟨ite_clear_eq _ data 24, ite_clear_eq _ data 27, ite_clear_eq _ data 28,
    ite_clear_eq _ data 29, ite_clear_eq _ data 30, ite_clear_eq _ data 31,
    status_le_write s reg2 d2 m2⟩

theorem secondary_status_write1_clear_witness :
    ((c4_state.write_config_register 7 0x11000000 0x8).master_data_parity_error
        = (c4_state.master_data_parity_error && !(0x11000000 : Nat).testBit 24)) ∧
    ((c4_state.write_config_register 7 0x11000000 0x8).signaled_target_abort
        = (c4_state.signaled_target_abort && !(0x11000000 : Nat).testBit 27)) ∧
    ((c4_state.write_config_register 7 0x11000000 0x8).received_target_abort
        = (c4_state.received_target_abort && !(0x11000000 : Nat).testBit 28)) ∧
    ((c4_state.write_config_register 7 0x11000000 0x8).received_master_abort
        = (c4_state.received_master_abort && !(0x11000000 : Nat).testBit 29)) ∧
    ((c4_state.write_config_register 7 0x11000000 0x8).received_system_error
        = (c4_state.received_system_error && !(0x11000000 : Nat).testBit 30)) ∧
    ((c4_state.write_config_register 7 0x11000000 0x8).detected_parity_error
        = (c4_state.detected_parity_error && !(0x11000000 : Nat).testBit 31)) ∧
    status_le (c4_state.write_config_register 14 0xffffffff 0xF) c4_state = true :=
  secondary_status_write1_clear c4_state 0x11000000 0x8 14 0xffffffff 0xF (by decide)

/-- C10: a write to register index 4 updates BAR0 through the masked
byte-lane update with its decode mask and, because index 4 is a bare `if`
outside the exclusive `elif` dispatch chain, additionally delegates the same
write `(4, data, mask)` to the base register file; a write to index 5
updates only BAR1 and performs no delegation. -/
theorem bar0_write_delegation (s : Bridge) (data mask : Nat) :
    s.write_config_register 4 data mask
        = { s with
            bar0 := byte_mask_update_m s.bar0 mask data s.bar_mask0
            base_writes := s.base_writes ++ [(4, data, mask)] } ∧
    s.write_config_register 5 data mask
        = { s with bar1 := byte_mask_update_m s.bar1 mask data s.bar_mask1 } :=
  ⟨rfl, rfl⟩

/-! ### Bridge routing theorems -/

/-- C6: a type-1 configuration request arriving from upstream at a bridge is
forwarded downstream when `sec_bus ≤ dest_id.bus ≤ sub_bus`, rewritten to the
corresponding type-0 request exactly when `dest_id.bus = sec_bus` and left
unmodified otherwise; outside the subordinate range it is dropped with no
delivery and no forwarding. -/
theorem cfg1_upstream_routing (s : Bridge) (tlp : Tlp)
    (h : tlp.fmt_type = .CFG_READ_1 ∨ tlp.fmt_type = .CFG_WRITE_1) :
    s.upstream_recv tlp =
      if s.sec_bus_num ≤ tlp.dest_id.bus ∧ tlp.dest_id.bus ≤ s.sub_bus_num then
        .route_downstream
          (if tlp.dest_id.bus = s.sec_bus_num then
            { tlp with fmt_type :=
                if tlp.fmt_type = .CFG_READ_1 then .CFG_READ_0 else .CFG_WRITE_0 }
          else tlp) false
      else .dropped := by
  rcases h with h | h <;>
    simp [Bridge.upstream_recv, h, TlpType.is_cfg0, TlpType.is_cfg1, cfg1_to_cfg0]

theorem cfg1_upstream_routing_witness :
    (c6_tlp.fmt_type = .CFG_READ_1 ∨ c6_tlp.fmt_type = .CFG_WRITE_1) ∧
    c6_bridge.upstream_recv c6_tlp =
      (if c6_bridge.sec_bus_num ≤ c6_tlp.dest_id.bus ∧
          c6_tlp.dest_id.bus ≤ c6_bridge.sub_bus_num then
        RecvAction.route_downstream
          (if c6_tlp.dest_id.bus = c6_bridge.sec_bus_num then
            { c6_tlp with fmt_type :=
                if c6_tlp.fmt_type = .CFG_READ_1 then .CFG_READ_0 else .CFG_WRITE_0 }
          else c6_tlp) false
      else .dropped) :=
  ⟨Or.inl rfl, cfg1_upstream_routing c6_bridge c6_tlp (Or.inl rfl)⟩

/-- C7: at a root node, a completion or ID-routed message arriving from
downstream whose routing identity (`requester_id` for completions, `dest_id`
for ID-routed messages) has bus equal to the node's primary bus number and
device 0 is forwarded upstream, never re-injected downstream. -/
theorem root_self_route_upstream (s : Bridge) (tlp : Tlp) (hroot : s.root = true)
    (h : (tlp.fmt_type.is_cpl = true ∧ tlp.requester_id.bus = s.pri_bus_num ∧
            tlp.requester_id.device = 0) ∨
         (tlp.fmt_type.is_msg_id = true ∧ tlp.dest_id.bus = s.pri_bus_num ∧
            tlp.dest_id.device = 0)) :
    s.downstream_recv tlp = .upstream_send tlp := by
  rcases h with ⟨ht, hb, hd⟩ | ⟨ht, hb, hd⟩ <;>
    cases tt : tlp.fmt_type <;>
      simp_all [Bridge.downstream_recv, TlpType.is_cfg0, TlpType.is_cfg1, TlpType.is_cpl,
        TlpType.is_msg_id, TlpType.is_io_rw, TlpType.is_mem_rw, TlpType.is_msg_to_rc,
        TlpType.is_bcast, TlpType.is_msg_local, TlpType.is_gather]

theorem root_self_route_upstream_witness :
    c7_bridge.root = true ∧
    ((c7_tlp.fmt_type.is_cpl = true ∧ c7_tlp.requester_id.bus = c7_bridge.pri_bus_num ∧
        c7_tlp.requester_id.device = 0) ∨
     (c7_tlp.fmt_type.is_msg_id = true ∧ c7_tlp.dest_id.bus = c7_bridge.pri_bus_num ∧
        c7_tlp.dest_id.device = 0)) ∧
    c7_bridge.downstream_recv c7_tlp = .upstream_send c7_tlp :=
  ⟨rfl, Or.inl ⟨rfl, rfl, rfl⟩,
    root_self_route_upstream c7_bridge c7_tlp rfl (Or.inl ⟨rfl, rfl, rfl⟩)⟩

/-- C9: a gather message arriving from downstream terminates the traversal
with the fatal unimplemented error (`raise Exception("TODO")`); it is neither
routed nor silently dropped. -/
theorem gather_downstream_fatal (s : Bridge) (tlp : Tlp)
    (h : tlp.fmt_type = .MSG_GATHER ∨ tlp.fmt_type = .MSG_DATA_GATHER) :
    s.downstream_recv tlp = .fatal_todo := by
  rcases h with h | h <;>
    simp [Bridge.downstream_recv, h, TlpType.is_cfg0, TlpType.is_cfg1, TlpType.is_cpl,
      TlpType.is_msg_id, TlpType.is_io_rw, TlpType.is_mem_rw, TlpType.is_msg_to_rc,
      TlpType.is_bcast, TlpType.is_msg_local, TlpType.is_gather]

theorem gather_downstream_fatal_witness :
    (c9_tlp.fmt_type = .MSG_GATHER ∨ c9_tlp.fmt_type = .MSG_DATA_GATHER) ∧
    c6_bridge.downstream_recv c9_tlp = .fatal_todo :=
  ⟨Or.inl rfl, gather_downstream_fatal c6_bridge c9_tlp (Or.inl rfl)⟩

/-! ### Fan-out router theorems -/

theorem route_loop_skip (tlp : Tlp) (dev : DownstreamDev) (rest : List DownstreamDev)
    (i : Nat) (evs : List RouteEvent) (ok : Bool)
    (hb : tlp.fmt_type.is_bcast = false) (hm : dev_match tlp dev = false) :
    route_loop tlp (dev :: rest) i evs ok = route_loop tlp rest (i + 1) evs ok := by
  cases tt : tlp.fmt_type <;>
    simp_all [route_loop, dev_match, TlpType.is_cfg0, TlpType.is_cfg1, TlpType.is_cpl,
      TlpType.is_msg_id, TlpType.is_io_rw, TlpType.is_mem_rw, TlpType.is_msg_to_rc,
      TlpType.is_bcast, TlpType.is_msg_local, TlpType.is_gather]

theorem route_loop_no_match (tlp : Tlp) (hb : tlp.fmt_type.is_bcast = false) :
    ∀ (devs : List DownstreamDev) (i : Nat) (evs : List RouteEvent) (ok : Bool),
      (∀ d ∈ devs, dev_match tlp d = false) →
      route_loop tlp devs i evs ok = .completed evs ok := by
  intro devs
  induction devs with
  | nil => intro i evs ok _; rfl
  | cons dev rest ih =>
    intro i evs ok hall
    rw [route_loop_skip tlp dev rest i evs ok hb (hall dev (by simp))]
    exact ih (i + 1) evs ok (fun d hd => hall d (by simp [hd]))

/-- C1 (amended): when the neighbor iteration of the fan-out router completes
with no match for a non-broadcast packet, exactly one Unsupported-Request
completion is synthesized, addressed back to the packet's requester with this
node's identity (function 0) as the responder; it is retried downstream
(re-routed through the fan-out router with `from_downstream = False`) when
the original packet arrived from downstream, and sent upstream otherwise. -/
theorem ur_completion_routing (s : SwitchUpstreamPort) (tlp : Tlp)
    (hb : tlp.fmt_type.is_bcast = false)
    (hnm : ∀ d ∈ s.downstream_devs, dev_match tlp d = false) :
    (create_ur_completion_for_tlp tlp ⟨s.pcie_id.bus, s.pcie_id.device, 0⟩).requester_id
        = tlp.requester_id ∧
    (create_ur_completion_for_tlp tlp ⟨s.pcie_id.bus, s.pcie_id.device, 0⟩).completer_id
        = ⟨s.pcie_id.bus, s.pcie_id.device, 0⟩ ∧
    s.route_downstream_tlp tlp true
        = s.route_downstream_tlp_noretry
            (create_ur_completion_for_tlp tlp ⟨s.pcie_id.bus, s.pcie_id.device, 0⟩) ∧
    s.route_downstream_tlp tlp false
        = [.upstream_send (create_ur_completion_for_tlp tlp
            ⟨s.pcie_id.bus, s.pcie_id.device, 0⟩)] := by
  have hloop := route_loop_no_match tlp hb s.downstream_devs 0 [] false hnm
  refine ⟨rfl, rfl, ?_, ?_⟩
  · unfold SwitchUpstreamPort.route_downstream_tlp
    rw [hloop]
    rfl
  · unfold SwitchUpstreamPort.route_downstream_tlp
    rw [hloop]
    rfl

theorem ur_completion_routing_witness :
    c1_cex_tlp.fmt_type.is_bcast = false ∧
    dev_match c1_cex_tlp c1_cex_dev = false ∧
    ((create_ur_completion_for_tlp c1_cex_tlp
        ⟨c1_cex_switch.pcie_id.bus, c1_cex_switch.pcie_id.device, 0⟩).requester_id
        = c1_cex_tlp.requester_id ∧
     (create_ur_completion_for_tlp c1_cex_tlp
        ⟨c1_cex_switch.pcie_id.bus, c1_cex_switch.pcie_id.device, 0⟩).completer_id
        = ⟨c1_cex_switch.pcie_id.bus, c1_cex_switch.pcie_id.device, 0⟩ ∧
     c1_cex_switch.route_downstream_tlp c1_cex_tlp true
        = c1_cex_switch.route_downstream_tlp_noretry
            (create_ur_completion_for_tlp c1_cex_tlp
              ⟨c1_cex_switch.pcie_id.bus, c1_cex_switch.pcie_id.device, 0⟩) ∧
     c1_cex_switch.route_downstream_tlp c1_cex_tlp false
        = [.upstream_send (create_ur_completion_for_tlp c1_cex_tlp
            ⟨c1_cex_switch.pcie_id.bus, c1_cex_switch.pcie_id.device, 0⟩)]) :=
  ⟨rfl, by decide,
    ur_completion_routing c1_cex_switch c1_cex_tlp rfl (by
      intro d hd
      simp only [c1_cex_switch, List.mem_singleton] at hd
      rw [hd]
      decide)⟩

/-- C1 (counterexample): at a switch with one downstream neighbor `(1,0,0)`
and a memory read from that downstream device matching no neighbor, the
synthesized Unsupported-Request completion of a packet that arrived from
downstream is retried downstream (delivered to neighbor 0), not sent
upstream; the completion is sent upstream exactly when the original packet
arrived from upstream — the opposite of the claimed directions. -/
theorem ur_direction_counterexample :
    c1_cex_switch.route_downstream_tlp c1_cex_tlp true
        = [.ext_recv 0 (create_ur_completion_for_tlp c1_cex_tlp ⟨0, 0, 0⟩)] ∧
    ¬ c1_cex_switch.route_downstream_tlp c1_cex_tlp true
        = [.upstream_send (create_ur_completion_for_tlp c1_cex_tlp ⟨0, 0, 0⟩)] ∧
    c1_cex_switch.route_downstream_tlp c1_cex_tlp false
        = [.upstream_send (create_ur_completion_for_tlp c1_cex_tlp ⟨0, 0, 0⟩)] := by
  refine ⟨by decide, by decide, by decide⟩

/-- C2: evaluation of the fan-out router on the failing input.  The ID-routed
message `c2_tlp` has `dest_id.bus = 5` inside the neighbor bridge's
subordinate range `[4, 10]`, yet it is not forwarded to that neighbor — an
Unsupported-Request completion is synthesized instead, because the source
tests `tlp.requester_id.bus` (bus 20, out of range) against the neighbor's
range; conversely `c2_tlp_swapped`, whose `dest_id.bus = 20` is outside
every neighbor's range but whose `requester_id.bus = 5` is inside, is
forwarded to the neighbor. -/
theorem msg_id_bus_range_bug_eval :
    (4 ≤ c2_tlp.dest_id.bus ∧ c2_tlp.dest_id.bus ≤ 10) ∧
    c2_switch.route_downstream_tlp c2_tlp false
        = [.upstream_send (create_ur_completion_for_tlp c2_tlp ⟨0, 0, 0⟩)] ∧
    ¬ (4 ≤ c2_tlp_swapped.dest_id.bus ∧ c2_tlp_swapped.dest_id.bus ≤ 10) ∧
    c2_switch.route_downstream_tlp c2_tlp_swapped false
        = [.ext_recv 0 c2_tlp_swapped] := by
  refine ⟨by decide, by decide, by decide, by decide⟩

theorem route_loop_bcast (tlp : Tlp) (hb : tlp.fmt_type.is_bcast = true) :
    ∀ (devs : List DownstreamDev) (i : Nat) (evs : List RouteEvent) (ok : Bool),
      route_loop tlp devs i evs ok =
        .completed (evs ++ (List.range devs.length).map (fun k => .ext_recv (i + k) tlp))
          (ok || !devs.isEmpty) := by
  intro devs
  induction devs with
  | nil => intro i evs ok; simp [route_loop]
  | cons dev rest ih =>
    intro i evs ok
    have hstep : route_loop tlp (dev :: rest) i evs ok
        = route_loop tlp rest (i + 1) (evs ++ [.ext_recv i tlp]) true := by
      cases tt : tlp.fmt_type <;>
        simp_all [route_loop, TlpType.is_cfg0, TlpType.is_cfg1, TlpType.is_cpl,
          TlpType.is_msg_id, TlpType.is_io_rw, TlpType.is_mem_rw, TlpType.is_msg_to_rc,
          TlpType.is_bcast, TlpType.is_msg_local, TlpType.is_gather]
    rw [hstep, ih]
    have hadd : ∀ k, i + 1 + k = i + (k + 1) := fun k => by omega
    simp [List.range_succ_eq_map, List.map_map, Function.comp, hadd, List.append_assoc]

/-- C3 (amended): a broadcast message entering the fan-out router is
forwarded to every downstream neighbor exactly once, in declaration order,
with no Unsupported-Request completion synthesized, provided at least one
downstream neighbor exists. -/
theorem bcast_fanout_delivery (s : SwitchUpstreamPort) (tlp : Tlp) (fd : Bool)
    (hb : tlp.fmt_type.is_bcast = true) (hne : s.downstream_devs ≠ []) :
    s.route_downstream_tlp tlp fd
      = (List.range s.downstream_devs.length).map (fun i => .ext_recv i tlp) := by
  unfold SwitchUpstreamPort.route_downstream_tlp
  rw [route_loop_bcast tlp hb s.downstream_devs 0 [] false]
  have hemp : s.downstream_devs.isEmpty = false := by
    cases hd : s.downstream_devs
    · exact absurd hd hne
    · rfl
  rw [hemp]
  simp

theorem bcast_fanout_delivery_witness :
    c3_cex_tlp.fmt_type.is_bcast = true ∧
    c3w_switch.downstream_devs.length = 2 ∧
    c3w_switch.route_downstream_tlp c3_cex_tlp false
      = [.ext_recv 0 c3_cex_tlp, .ext_recv 1 c3_cex_tlp] :=
  ⟨rfl, rfl, by
    rw [bcast_fanout_delivery c3w_switch c3_cex_tlp false rfl (List.cons_ne_nil _ _)]
    decide⟩

/-- C3 (counterexample): at a switch upstream port with no downstream
neighbors, a broadcast message leaves the loop with `ok` still false, so an
Unsupported-Request completion IS synthesized and sent upstream — the claim's
"no completion synthesized even when the set of downstream neighbors is
empty" fails. -/
theorem bcast_empty_counterexample :
    c3_cex_switch.route_downstream_tlp c3_cex_tlp false
        = [.upstream_send (create_ur_completion_for_tlp c3_cex_tlp ⟨0, 0, 0⟩)] ∧
    ¬ c3_cex_switch.route_downstream_tlp c3_cex_tlp false = [] := by
  refine ⟨by decide, by decide⟩
